import Mathlib

/-!
# Verification of the 4sale hierarchical automotive scraping pipeline

Shallow embedding of the three source modules:

* `CarScraper.py` — brand discovery and per-brand pagination with early stop;
* `hierarchial_code_main.py` — the orchestrator: the yesterday date filter,
  per-category Excel artifact generation (sheet list), upload gating;
* `SavingOnDrive.py` — remote folder resolution, retry policy, and the
  per-destination save loop.

External effects (network fetches, the Drive API, the spreadsheet library,
wall-clock time) are modelled as explicit oracles or day-number clocks passed
in as parameters; everything else follows the Python source line by line.
-/

deriving instance DecidableEq for Except

namespace Scrape

/-! ## Python string helpers -/

/-- Python `str.split(sep)` restricted to a single character separator with a
`maxsplit` bound, over explicit character lists (`"a/b".split('/', 3)`). -/
def pySplitN (sep : Char) : Nat → List Char → List (List Char)
  | 0, cs => [cs]
  | n + 1, cs =>
    match splitFirst sep cs with
    | none => [cs]
    | some (a, b) => a :: pySplitN sep n b
where
  /-- Split off everything before the first occurrence of `sep`. -/
  splitFirst (sep : Char) : List Char → Option (List Char × List Char)
    | [] => none
    | c :: cs =>
      if c = sep then some ([], cs)
      else
        match splitFirst sep cs with
        | none => none
        | some (a, b) => some (c :: a, b)

/-- Python `s.startswith('/')`: whether the first character is `'/'`. -/
def pyStartsWithSlash (s : String) : Bool :=
  match s.data with
  | [] => false
  | c :: _ => c = '/'

/-- The characters strictly before the last `'/'` of a character list, or
`none` when it has no `'/'`. -/
def beforeLastSlash : List Char → Option (List Char)
  | [] => none
  | c :: cs =>
    match beforeLastSlash cs with
    | some inner => some (c :: inner)
    | none => if c = '/' then some [] else none

/-- Python `s.rsplit('/', 1)[0]`: the prefix of `s` before its last `'/'`;
`s` itself when it has no `'/'`. -/
def rsplitBefore (s : String) : String :=
  match beforeLastSlash s.data with
  | some pre => String.mk pre
  | none => s

/-- The character `'{'` (written numerically). -/
def lbrace : Char := Char.ofNat 123

/-- The character `'}'` (written numerically). -/
def rbrace : Char := Char.ofNat 125

/-- The literal two-character placeholder the scraper appends to link
templates. -/
def placeholder : String := String.mk [lbrace, rbrace]

/-- Substitute a value for the first `\x7b\x7d` placeholder in a character
list, as Python `template.format(v)` would for a single positional slot. -/
def substOnce (v : List Char) : List Char → List Char
  | [] => []
  | c :: cs =>
    if c = lbrace then
      match cs with
      | c2 :: cs2 => if c2 = rbrace then v ++ cs2 else c :: substOnce v cs
      | [] => [c]
    else c :: substOnce v cs

/-- Python `template.format(n)` for one positional page-number slot. -/
def pyFormat1 (template : String) (n : Nat) : String :=
  String.mk (substOnce (toString n).data template.data)

/-! ## `datetime.strptime(s, '%Y-%m-%d %H:%M:%S')` and `strftime('%Y-%m-%d')`

The parser follows CPython's behaviour on this fixed format: each numeric
directive matches a bounded run of digits (`%Y` up to four, the others up to
two), the constructed datetime validates month, day-of-month (with leap
years), hour, minute and second, and re-formatting zero-pads month and day. -/

/-- A digit run of length `1..k`. -/
def isDigits (k : Nat) (cs : List Char) : Bool :=
  decide (1 ≤ cs.length) && decide (cs.length ≤ k) && cs.all Char.isDigit

/-- Gregorian leap year. -/
def isLeap (y : Nat) : Bool :=
  (y % 4 == 0 && y % 100 != 0) || (y % 400 == 0)

/-- Number of days in a month. -/
def daysInMonth (y m : Nat) : Nat :=
  if m = 2 then (if isLeap y then 29 else 28)
  else if m = 4 ∨ m = 6 ∨ m = 9 ∨ m = 11 then 30
  else 31

/-- Numeric value of a digit run. -/
def digitsToNat (cs : List Char) : Nat :=
  cs.foldl (fun acc c => acc * 10 + (c.toNat - 48)) 0

/-- Zero-pad a number to two digits, as `strftime` does for `%m` and `%d`. -/
def pad2 (n : Nat) : String :=
  if n < 10 then "0" ++ toString n else toString n

/-- CPython `datetime.strptime(s, '%Y-%m-%d %H:%M:%S')` followed by
`strftime('%Y-%m-%d')`: `some` of the normalised date string on success,
`none` when CPython would raise `ValueError`. -/
def parseDatePublished (s : String) : Option String :=
  match pySplitN ' ' 1 s.data with
  | [d, t] =>
    match pySplitN '-' 2 d, pySplitN ':' 2 t with
    | [ys, ms, ds], [hs, mins, ss] =>
      if isDigits 4 ys && isDigits 2 ms && isDigits 2 ds &&
         isDigits 2 hs && isDigits 2 mins && isDigits 2 ss then
        let y := digitsToNat ys
        let m := digitsToNat ms
        let dd := digitsToNat ds
        if 1 ≤ y && 1 ≤ m && m ≤ 12 && 1 ≤ dd && dd ≤ daysInMonth y m &&
           digitsToNat hs ≤ 23 && digitsToNat mins ≤ 59 && digitsToNat ss ≤ 59 then
          some (toString y ++ "-" ++ pad2 m ++ "-" ++ pad2 dd)
        else none
      else none
    | _, _ => none
  | _ => none

/-! ## Listing records and the orchestrator's date filter
(`hierarchial_code_main.py`, `filter_yesterday_data`, lines 54–63) -/

/-- One listing record as the detail extractor produces it.  The
`date_published` field of the Python dict is modelled with two `Option`
layers: the outer `none` means the key is absent (indexing raises
`KeyError`), `some none` means the value is Python `None` (`strptime` raises
`TypeError`), `some (some s)` is a string value.  `payload` stands for all
the other fields, passed through uninterpreted. -/
structure Record where
  date_published : Option (Option String)
  payload : Nat
deriving DecidableEq, Repr

/-- The Python exceptions the filter can leak. -/
inductive PyError where
  | keyError
deriving DecidableEq, Repr

/-- Embeds `HierarchialMainScraper.filter_yesterday_data` (lines 54–63): keep the
records whose parsed date equals `yesterday`; `ValueError`/`TypeError` are
caught and the record skipped; a missing `date_published` key raises
`KeyError`, which the `except (ValueError, TypeError)` clause does not
catch. -/
def filter_yesterday_data (yesterday : String) :
    List Record → Except PyError (List Record)
  | [] => .ok []
  | car :: rest =>
    match car.date_published with
    | none => .error .keyError
    | some none => filter_yesterday_data yesterday rest
    | some (some s) =>
      match parseDatePublished s with
      | none => filter_yesterday_data yesterday rest
      | some d =>
        if d = yesterday then
          (filter_yesterday_data yesterday rest).map (car :: ·)
        else
          filter_yesterday_data yesterday rest

/-! ## Sheet naming and Excel artifact generation
(`hierarchial_code_main.py`, `save_to_excel`, lines 65–86) -/

/-- Modelled from Python's Unicode-aware `str.isalnum`, restricted to the
character ranges this repository's data uses: ASCII letters and digits, the
Arabic letters of the U+0600 block, and the Arabic-Indic digits.  (The full
Unicode tables live outside the source; every character occurring in the
configuration and in the witnesses below is classified exactly as CPython
classifies it.) -/
def pyIsAlnum (c : Char) : Bool :=
  let n := c.toNat
  (48 ≤ n && n ≤ 57) || (65 ≤ n && n ≤ 90) || (97 ≤ n && n ≤ 122) ||
  (0x621 ≤ n && n ≤ 0x64A) || (0x660 ≤ n && n ≤ 0x669) ||
  (0x66E ≤ n && n ≤ 0x6D3)

/-- Python `"".join(generator)`: fold the generated characters onto an
initially empty string. -/
def pyJoin (cs : List Char) : String :=
  cs.foldl (fun acc c => acc.push c) ""

/-- Python slice `s[:n]` on a string (code-point prefix of length `≤ n`). -/
def pySliceTo (n : Nat) (s : String) : String :=
  String.mk (s.data.take n)

/-- Line 78 of `hierarchial_code_main.py`:
`"".join(x for x in brand['brand_title'] if x.isalnum())[:31]`. -/
def sheet_name_of_title (title : String) : String :=
  pySliceTo 31 (pyJoin (title.data.filter pyIsAlnum))

/-- One brand's harvested data as `save_to_excel` consumes it
(`brand['brand_title']`, `brand.get('available_cars', [])`). -/
structure BrandData where
  brand_title : String
  available_cars : List Record
deriving DecidableEq, Repr

/-- Embeds `HierarchialMainScraper.save_to_excel` (lines 65–86), observed as the
list of `(sheet name, rows)` pairs written into the workbook: with an empty
brand list the single placeholder sheet `'No Data'` is written; otherwise
one sheet per brand whose filtered records are non-empty, in brand order.
A `KeyError` escaping `filter_yesterday_data` is caught by the function's
outer `except Exception` (which then returns `None`, i.e. no artifact), so
the result is `none` in that case. -/
def save_to_excel (yesterday : String) (brand_data : List BrandData) :
    Option (List (String × List Record)) :=
  if brand_data.isEmpty then
    some [("No Data", [])]
  else
    go brand_data
where
  /-- The sheet-writing loop of lines 74–81. -/
  go : List BrandData → Option (List (String × List Record))
    | [] => some []
    | brand :: rest =>
      match filter_yesterday_data yesterday brand.available_cars with
      | .error _ => none
      | .ok [] => go rest
      | .ok (c :: cs) =>
        (go rest).map ((sheet_name_of_title brand.brand_title, c :: cs) :: ·)

/-! ## The category harvester (`CarScraper.py`) -/

/-- Outcome of one `DetailsScraping(url).get_car_details()` call: a list of
records, or a raised exception. -/
inductive PageResult where
  | ok (cars : List Record)
  | err
deriving DecidableEq, Repr

/-- The records a page call yields (an erroring call yields none). -/
def yieldOf : PageResult → List Record
  | .ok cars => cars
  | .err => []

/-- Whether a page call stops the pagination loop (line 55's `break` on an
empty result, or line 58's `break` on an exception). -/
def stopsB : PageResult → Bool
  | .ok (_ :: _) => false
  | _ => true

/-- Line 44: `paginated_link = f"{full_brand_link}/{page_num}"`. -/
def pageLink (base : String) (p : Nat) : String :=
  base ++ "/" ++ toString p

/-- The pagination loop of lines 43–58, started at page `p` with `fuel`
iterations remaining, returning the accumulated `brand_data` and the trace
of paginated links actually requested. -/
def scrapePagesFrom (fetch : String → PageResult) (base : String) :
    Nat → Nat → List Record × List String
  | _, 0 => ([], [])
  | p, fuel + 1 =>
    match fetch (pageLink base p) with
    | .err => ([], [pageLink base p])
    | .ok [] => ([], [pageLink base p])
    | .ok (c :: cs) =>
      let rest := scrapePagesFrom fetch base (p + 1) fuel
      ((c :: cs) ++ rest.1, pageLink base p :: rest.2)

/-- Embeds `for page_num in range(1, pages_to_scrape + 1): ...` (lines 43–58). -/
def scrapePages (fetch : String → PageResult) (base : String) (budget : Nat) :
    List Record × List String :=
  scrapePagesFrom fetch base 1 budget

/-- One brand anchor element: `element.get_attribute('title')` and
`element.get_attribute('href')`, each possibly absent. -/
structure BrandElem where
  title : Option String
  href : Option String
deriving DecidableEq, Repr

/-- The per-brand dictionary appended to `self.data` (lines 60–64). -/
structure Entry where
  brand_title : Option String
  brand_link : String
  available_cars : List Record
deriving DecidableEq, Repr

/-- The `CarScraper` instance state (constructor lines 6–11). -/
structure CarScraper where
  url : String
  num_pages : Nat
  specific_brands : List String
  specific_pages : Nat
  data : List Entry
deriving DecidableEq, Repr

/-- Embeds `CarScraper.__init__`: `specific_brands or []` maps a missing list to
`[]`; `specific_pages if specific_pages else num_pages` maps a missing or
zero (falsy) page count to `num_pages`; `self.data = []`. -/
def initCarScraper (url : String) (num_pages : Nat)
    (specific_brands : Option (List String)) (specific_pages : Option Nat) :
    CarScraper :=
  { url := url
    num_pages := num_pages
    specific_brands := specific_brands.getD []
    specific_pages :=
      match specific_pages with
      | some n => if n = 0 then num_pages else n
      | none => num_pages
    data := [] }

/-- Lines 30–31: `base_url = self.url.split('/', 3)[0] + '//' +
self.url.split('/', 3)[2]`, then prepend it when the `href` is
site-relative. -/
def resolveBrandLink (url href : String) : String :=
  let parts := pySplitN '/' 3 url.data
  let base := String.mk (parts.getD 0 []) ++ "//" ++ String.mk (parts.getD 2 [])
  if pyStartsWithSlash href then base ++ href else href

/-- Lines 34–38: the page budget, `specific_pages` when the title is in
`specific_brands` (Python's `title in list` is `False` for a `None`
title). -/
def pagesBudget (self : CarScraper) (title : Option String) : Nat :=
  match title with
  | some t => if self.specific_brands.contains t then self.specific_pages else self.num_pages
  | none => self.num_pages

/-- The body of the brand loop for one anchor (lines 29–64): skipped when
`href` is `None` or empty (falsy), otherwise paginate and build the entry,
whose `brand_link` is `full_brand_link.rsplit('/', 1)[0] + '/\x7b\x7d'`.
Returns the entry together with the trace of requested page links. -/
def processBrand (self : CarScraper) (fetch : String → PageResult)
    (e : BrandElem) : Option (Entry × List String) :=
  match e.href with
  | none => none
  | some href =>
    if href = "" then none
    else
      let full := resolveBrandLink self.url href
      let scraped := scrapePages fetch full (pagesBudget self e.title)
      some ({ brand_title := e.title
              brand_link := rsplitBefore full ++ "/" ++ placeholder
              available_cars := scraped.1 }, scraped.2)

/-- The entry emitted for one anchor. -/
def entryFor (self : CarScraper) (fetch : String → PageResult)
    (e : BrandElem) : Option Entry :=
  (processBrand self fetch e).map Prod.fst

/-- The environment one harvest call runs against: the brand anchors the
rendering engine finds on `self.url`, and the detail extractor's behaviour
per paginated link. -/
structure Env where
  brand_elements : List BrandElem
  fetch : String → PageResult

/-- Embeds `CarScraper.scrape_brands_and_types` (lines 13–69): when no anchors are
found, return `self.data` unchanged; otherwise append one entry per anchor
with a usable `href` to `self.data` and return it.  Exceptions from the
detail extractor are contained inside the per-page `try` (line 56), so the
function never raises; its value is the returned list paired with the
updated instance. -/
def scrape_brands_and_types (self : CarScraper) (env : Env) :
    List Entry × CarScraper :=
  if env.brand_elements.isEmpty then
    (self.data, self)
  else
    let d := self.data ++ env.brand_elements.filterMap (entryFor self env.fetch)
    (d, { self with data := d })

/-! ## The remote store (`SavingOnDrive.py`) -/

/-- Response of one Drive API call as the code distinguishes them: a value,
an `HttpError` with status 404, any other `HttpError`, or some other raised
exception (network errors included — with a deterministic oracle the
tenacity wrapper's re-attempts return the same response, so after its
bounded retries the exception still propagates; the attempt counting itself
is modelled separately below). -/
inductive DriveResp (α : Type) where
  | ok (a : α)
  | http404
  | httpOther
  | exn
deriving DecidableEq, Repr

/-- The folder API surface `get_or_create_folder` touches: the
`files().list` search for `(name, parent)` and the `files().create` call. -/
structure FolderApi where
  search : String → String → DriveResp (List String)
  create : String → String → DriveResp String

/-- Embeds `SavingOnDrive.get_or_create_folder` (lines 61–105): return the first
matching folder id; create one when the search comes back empty; an
`HttpError` with status 404 returns `None` (`.ok none`); every other raised
exception propagates (`.error`). -/
def get_or_create_folder (api : FolderApi) (name parent : String) :
    Except Unit (Option String) :=
  match api.search name parent with
  | .ok (fid :: _) => .ok (some fid)
  | .ok [] =>
    match api.create name parent with
    | .ok fid => .ok (some fid)
    | .http404 => .ok none
    | .httpOther => .error ()
    | .exn => .error ()
  | .http404 => .ok none
  | .httpOther => .error ()
  | .exn => .error ()

/-- Embeds `SavingOnDrive.save_files` (lines 153–192), observed as the list of
`(folder id, file name)` upload attempts it makes, paired with `true` when
the function returns normally and `false` when it re-raises.  The
destination loop skips a parent whose resolution returns `None` (line 165's
`continue`); a resolution that raises escapes the loop, is logged by the
outer `except`, and re-raised (line 192), so no later parent is reached.
The inner upload retry loop catches every upload exception, so uploads
never abort the loop. -/
def save_files_attempts (api : FolderApi) (dateName : String)
    (parents : List String) (files : List String) :
    List (String × String) × Bool :=
  match parents with
  | [] => ([], true)
  | p :: ps =>
    match get_or_create_folder api dateName p with
    | .error _ => ([], false)
    | .ok none => save_files_attempts api dateName ps files
    | .ok (some fid) =>
      let rest := save_files_attempts api dateName ps files
      (files.map (fun f => (fid, f)) ++ rest.1, rest.2)

/-! ### The retry policy (tenacity decorator, lines 107–111, and the inner
retry loop of `save_files`, lines 168–185) -/

/-- Outcome of one low-level attempt of a decorated operation. -/
inductive Outcome where
  | success
  | netErr
  | otherErr
deriving DecidableEq, Repr

/-- Result of one call of a tenacity-decorated operation. -/
inductive CallResult where
  | ok
  | failed (e : Outcome)
deriving DecidableEq, Repr

/-- One call of an operation decorated with
`@retry(stop=stop_after_attempt(3), retry=retry_if_exception_type((socket.error,
ssl.SSLError, ConnectionError)))`: attempts are drawn from the stream
starting at index `i`; a network-class failure is retried up to the third
attempt, any other exception propagates at once, and after three
network-class failures the retry ceiling raises.  Returns the call's result
and the index after the attempts it consumed. -/
def tenacityCall (stream : Nat → Outcome) (i : Nat) : CallResult × Nat :=
  match stream i with
  | .success => (.ok, i + 1)
  | .otherErr => (.failed .otherErr, i + 1)
  | .netErr =>
    match stream (i + 1) with
    | .success => (.ok, i + 2)
    | .otherErr => (.failed .otherErr, i + 2)
    | .netErr =>
      match stream (i + 2) with
      | .success => (.ok, i + 3)
      | .otherErr => (.failed .otherErr, i + 3)
      | .netErr => (.failed .netErr, i + 3)

/-- The inner retry loop of `save_files` around one `(file, folder)` upload
(lines 168–185): up to `max_retries = 3` calls of the decorated
`upload_file`, stopping at the first call that returns without raising;
every exception — network or not — is caught and triggers another call until
the ceiling.  Returns the index after all low-level attempts consumed, so
`uploadLoopEnd stream i - i` is the total number of low-level attempts made
for this upload. -/
def uploadLoopEnd (stream : Nat → Outcome) (i : Nat) : Nat :=
  match tenacityCall stream i with
  | (.ok, i1) => i1
  | (.failed _, i1) =>
    match tenacityCall stream i1 with
    | (.ok, i2) => i2
    | (.failed _, i2) => (tenacityCall stream i2).2

/-! ## The run clock (`hierarchial_code_main.py` lines 21–28, 44–52, 88–98
and `SavingOnDrive.py` line 157)

Wall-clock time is modelled at day granularity: a time is a day number, and
`(datetime.now() - timedelta(days=1)).strftime('%Y-%m-%d')` is abstracted to
the previous day number. -/

/-- Abstracts `(datetime.now() - timedelta(days=1))`, day-granular. -/
def yesterdayOf (t : Nat) : Nat := t - 1

/-- The orchestrator state the constructor establishes. -/
structure OrchTime where
  yesterday : Nat
  folder_ids : List String
deriving DecidableEq, Repr

/-- Embeds `HierarchialMainScraper.__init__` lines 21 and 24 together with
`get_or_create_yesterday_folders` (lines 44–52), run at construction time
`t0` against a resolution oracle `resolve : date ↦ parent ↦ folder id`. -/
def initOrchTime (resolve : Nat → String → Option String)
    (parents : List String) (t0 : Nat) : OrchTime :=
  { yesterday := yesterdayOf t0
    folder_ids := parents.filterMap (resolve (yesterdayOf t0)) }

/-- The date `filter_yesterday_data` compares against: the stored
`self.yesterday`. -/
def filterDateUsed (o : OrchTime) : Nat := o.yesterday

/-- Embeds `SavingOnDrive.save_files` lines 157–165 run at call time `t`: the
folder ids it resolves and uploads into. -/
def save_files_resolved (resolve : Nat → String → Option String)
    (parents : List String) (t : Nat) : List String :=
  parents.filterMap (resolve (yesterdayOf t))

/-- Embeds `HierarchialMainScraper.upload_to_drive` (lines 88–98) at call time `t`:
the stored `folder_ids` only gate whether anything is attempted; the upload
itself goes through `save_files`, which re-resolves folders for the date
current at time `t`. -/
def upload_to_drive_folders (o : OrchTime)
    (resolve : Nat → String → Option String) (parents : List String)
    (t : Nat) : List String :=
  if o.folder_ids.isEmpty then [] else save_files_resolved resolve parents t

/-! ## Derived predicates and concrete fixtures used in the theorems below -/

/-- The record-level test the filter effectively applies when the
`date_published` key is present: the value is a string whose normalised date
equals `yesterday`. -/
def keepsRecord (yesterday : String) (r : Record) : Bool :=
  match r.date_published with
  | some (some s) => parseDatePublished s == some yesterday
  | _ => false

/-- A record published the morning of 2024-01-01. -/
def rec1 : Record := ⟨some (some "2024-01-01 10:00:00"), 1⟩

/-- A record published the morning of 2024-01-02. -/
def rec2 : Record := ⟨some (some "2024-01-02 09:00:00"), 2⟩

/-- A record whose date string is malformed. -/
def recBad : Record := ⟨some (some "malformed"), 3⟩

/-- A record whose dict lacks the `date_published` key. -/
def recNoKey : Record := ⟨none, 4⟩

/-- A folder oracle where parent `A`'s resolution raises a non-404
`HttpError` and every other parent resolves to folder `fb`. -/
def apiRaiseA : FolderApi :=
  ⟨fun _ p => if p = "A" then .httpOther else .ok ["fb"], fun _ _ => .exn⟩

/-- A folder oracle where parent `A` does not exist (404) and every other
parent resolves to folder `fb`. -/
def apiAbsentA : FolderApi :=
  ⟨fun _ p => if p = "A" then .http404 else .ok ["fb"], fun _ _ => .exn⟩

/-- A remote-folder resolution oracle that encodes the date into the
resolved id, so folders of different dates are distinguishable. -/
def resolveToy : Nat → String → Option String :=
  fun d p => some (toString d ++ "/" ++ p)

/-- A detail-extractor behaviour whose pages under base `b` yield one record
on page 1, one on page 2, and nothing from page 3 on. -/
def fetchTwoPages : String → PageResult := fun l =>
  if l = "b/1" then .ok [rec1]
  else if l = "b/2" then .ok [rec2]
  else .ok []

/-- A three-page category scraper over `https://h.x/cat`. -/
def selfCat : CarScraper := initCarScraper "https://h.x/cat" 3 none none

/-- Brand anchor `A`. -/
def elemA : BrandElem := ⟨some "A", some "/cat/a"⟩

/-- Brand anchor `B`. -/
def elemB : BrandElem := ⟨some "B", some "/cat/b"⟩

/-- Brand anchor `C`. -/
def elemC : BrandElem := ⟨some "C", some "/cat/c"⟩

/-- A detail-extractor behaviour where brand `A` yields a record then an
empty page, brand `B` yields a record then raises, and brand `C` is empty
from its first page. -/
def fetchCat : String → PageResult := fun l =>
  if l = "https://h.x/cat/a/1" then .ok [rec1]
  else if l = "https://h.x/cat/b/1" then .ok [rec2]
  else if l = "https://h.x/cat/b/2" then .err
  else .ok []

/-- The harvest environment pairing the three anchors with `fetchCat`. -/
def envCat : Env := ⟨[elemA, elemB, elemC], fetchCat⟩

/-- A single-page category scraper over `https://h.x/cat`. -/
def selfC6 : CarScraper := initCarScraper "https://h.x/cat" 1 none none

/-- The brand anchor used in the link-template analysis. -/
def elemC6 : BrandElem := ⟨some "B", some "/cat/b"⟩

/-- A detail extractor that finds nothing on any page. -/
def fetchNone : String → PageResult := fun _ => .ok []

/-! ## Helper lemmas -/

/-- Folding `String.push` from `s` appends the folded characters. -/
lemma foldl_push_eq (cs : List Char) :
    ∀ s : String, cs.foldl (fun acc c => acc.push c) s = String.mk (s.data ++ cs) := by
  induction cs with
  | nil => intro s; cases s; simp
  | cons c cs ih =>
    intro s
    rw [List.foldl_cons, ih]
    cases s
    simp [String.push]

/-- Python's `"".join` over a character generator is just the string of
those characters. -/
lemma pyJoin_eq (cs : List Char) : pyJoin cs = String.mk cs := by
  simpa [pyJoin] using foldl_push_eq cs ""

/-! ## C9 — sheet naming -/

/-- C9: for every brand title, the sheet name is exactly the title's
alphanumeric characters (non-Latin ones included), in order, truncated to at
most 31 characters; a title with more than 31 alphanumerics keeps exactly
its first 31. -/
theorem C9_sheet_name_alnum_31 (title : String) :
    (sheet_name_of_title title).data = (title.data.filter pyIsAlnum).take 31 ∧
    (sheet_name_of_title title).data.length ≤ 31 := by
  have h : (sheet_name_of_title title).data = (title.data.filter pyIsAlnum).take 31 := by
    simp [sheet_name_of_title, pySliceTo, pyJoin_eq]
  refine ⟨h, ?_⟩
  rw [h]
  simp [List.length_take]

/-! ## C5 — the date filter -/

/-- C5 (amended): on every list of records that all carry the
`date_published` key, the filter returns — without raising — exactly the
records whose value is a string parsing in the fixed format to the run's
yesterday; unparsable and `None` values are silently dropped.  (A record
lacking the key entirely makes the filter raise `KeyError`; see the
counterexample.) -/
theorem C5_filter_keeps_yesterday (y : String) (records : List Record)
    (h : ∀ r ∈ records, r.date_published ≠ none) :
    filter_yesterday_data y records = .ok (records.filter (keepsRecord y)) := by
  induction records with
  | nil => rfl
  | cons car rest ih =>
    have hcar : car.date_published ≠ none := h car (by simp)
    have hrest : ∀ r ∈ rest, r.date_published ≠ none := fun r hr => h r (by simp [hr])
    match hdp : car.date_published with
    | none => exact absurd hdp hcar
    | some none =>
      simp [filter_yesterday_data, hdp, List.filter_cons, keepsRecord, ih hrest]
    | some (some s) =>
      match hps : parseDatePublished s with
      | none =>
        simp [filter_yesterday_data, hdp, hps, List.filter_cons, keepsRecord, ih hrest]
      | some d =>
        by_cases hdy : d = y
        · simp [filter_yesterday_data, hdp, hps, hdy, List.filter_cons, keepsRecord,
            ih hrest, Except.map]
        · simp [filter_yesterday_data, hdp, hps, hdy, List.filter_cons, keepsRecord,
            ih hrest]

/-- C5 witness: the spec's own P3 scenario, with the filter applied to a
well-dated record for 2024-01-01, one for 2024-01-02 and a malformed one,
when yesterday is `2024-01-02`. -/
theorem C5_filter_keeps_yesterday_witness :
    (∀ r ∈ [rec1, rec2, recBad], r.date_published ≠ none) ∧
    filter_yesterday_data "2024-01-02" [rec1, rec2, recBad] =
      .ok ([rec1, rec2, recBad].filter (keepsRecord "2024-01-02")) ∧
    [rec1, rec2, recBad].filter (keepsRecord "2024-01-02") = [rec2] :=
  ⟨by decide, C5_filter_keeps_yesterday "2024-01-02" [rec1, rec2, recBad] (by decide),
   by decide⟩

/-- C5 counterexample: a record whose dict lacks the `date_published` key is
not silently dropped — the filter raises `KeyError`, so the claim's
`never raises` part is false as stated. -/
theorem C5_missing_key_raises :
    filter_yesterday_data "2024-01-02" [recNoKey] = .error .keyError ∧
    filter_yesterday_data "2024-01-02" [recNoKey] ≠ .ok [] := by
  decide

/-! ## C1 — the empty-category artifact -/

/-- When every brand's filtered record list is empty (and no filter call
raises), the sheet-writing loop writes no sheet at all. -/
lemma save_to_excel_go_all_empty (y : String) :
    ∀ bd : List BrandData,
      (∀ b ∈ bd, filter_yesterday_data y b.available_cars = .ok []) →
      save_to_excel.go y bd = some [] := by
  intro bd
  induction bd with
  | nil => intro _; rfl
  | cons b rest ih =>
    intro h
    have hb := h b (by simp)
    have hrest := fun q hq => h q (List.mem_cons_of_mem _ hq)
    simp [save_to_excel.go, hb, ih hrest]

/-- C1 (amended): only a category whose harvested brand list is empty gets
the single `No Data` placeholder sheet; a category with at least one brand
but zero retained records across all brands writes zero sheets (the
placeholder branch tests the brand list, not the retained records), so no
placeholder artifact exists for it. -/
theorem C1_placeholder_only_for_empty_brand_list (y : String)
    (bd : List BrandData) (hne : bd ≠ [])
    (hall : ∀ b ∈ bd, filter_yesterday_data y b.available_cars = .ok []) :
    save_to_excel y [] = some [("No Data", [])] ∧
    save_to_excel y bd = some [] := by
  refine ⟨rfl, ?_⟩
  have hbd : bd.isEmpty = false := by
    cases bd
    · exact absurd rfl hne
    · rfl
  simp [save_to_excel, hbd, save_to_excel_go_all_empty y bd hall]

/-- C1 witness: one brand whose only record is dated 2024-01-01 while
yesterday is 2024-01-02. -/
theorem C1_placeholder_witness :
    (([⟨"B", [rec1]⟩] : List BrandData) ≠ []) ∧
    (∀ b ∈ ([⟨"B", [rec1]⟩] : List BrandData),
      filter_yesterday_data "2024-01-02" b.available_cars = .ok []) ∧
    save_to_excel "2024-01-02" [] = some [("No Data", [])] ∧
    save_to_excel "2024-01-02" [⟨"B", [rec1]⟩] = some [] :=
  ⟨by decide, by decide,
   (C1_placeholder_only_for_empty_brand_list "2024-01-02" [⟨"B", [rec1]⟩]
     (by decide) (by decide)).1,
   (C1_placeholder_only_for_empty_brand_list "2024-01-02" [⟨"B", [rec1]⟩]
     (by decide) (by decide)).2⟩

/-- C1 counterexample: a discovered brand none of whose records survive the
filter yields a workbook with zero sheets, not the claimed single `No Data`
placeholder sheet. -/
theorem C1_discovered_brand_no_placeholder :
    save_to_excel "2024-01-02" [⟨"BrandB", [rec1]⟩] = some [] ∧
    save_to_excel "2024-01-02" [⟨"BrandB", [rec1]⟩] ≠ some [("No Data", [])] := by
  decide

/-! ## C4 — the retry policy -/

/-- One tenacity-decorated call consumes between one and three low-level
attempts. -/
lemma tenacityCall_bounds (stream : Nat → Outcome) (i : Nat) :
    i + 1 ≤ (tenacityCall stream i).2 ∧ (tenacityCall stream i).2 ≤ i + 3 := by
  cases h0 : stream i <;>
    simp only [tenacityCall, h0] <;>
    first
      | omega
      | (cases h1 : stream (i + 1) <;>
          simp only [h1] <;>
          first
            | omega
            | (cases h2 : stream (i + 2) <;> simp only [h2] <;> omega))

/-- C4 (amended): each decorated operation makes at most 3 low-level
attempts per call, and a non-network failure fails the call after exactly
one attempt; folder resolution is called once so this is its whole budget,
but `save_files` wraps each upload in a further loop of up to 3 calls that
retries on any exception, so one upload may consume up to 9 low-level
attempts, and a persistently non-network-failing upload is attempted 3
times, not once. -/
theorem C4_retry_attempt_budget (stream : Nat → Outcome) (i : Nat) :
    (tenacityCall stream i).2 - i ≤ 3 ∧
    (stream i = .otherErr → tenacityCall stream i = (.failed .otherErr, i + 1)) ∧
    uploadLoopEnd stream i - i ≤ 9 ∧
    ((∀ j, stream j = .otherErr) → uploadLoopEnd stream i - i = 3) := by
  refine ⟨?_, ?_, ?_, ?_⟩
  · have := tenacityCall_bounds stream i
    omega
  · intro h
    simp [tenacityCall, h]
  · have b1 := tenacityCall_bounds stream i
    rcases h1 : tenacityCall stream i with ⟨c1, i1⟩
    rw [h1] at b1
    cases c1 with
    | ok =>
      simp only [uploadLoopEnd, h1]
      omega
    | failed e1 =>
      have b2 := tenacityCall_bounds stream i1
      rcases h2 : tenacityCall stream i1 with ⟨c2, i2⟩
      rw [h2] at b2
      cases c2 with
      | ok =>
        simp only [uploadLoopEnd, h1, h2]
        omega
      | failed e2 =>
        have b3 := tenacityCall_bounds stream i2
        simp only [uploadLoopEnd, h1, h2]
        omega
  · intro h
    have t : ∀ k, tenacityCall stream k = (.failed .otherErr, k + 1) := by
      intro k
      simp [tenacityCall, h k]
    simp [uploadLoopEnd, t]
    omega

/-- C4 witness: a persistently non-network-failing operation stream. -/
theorem C4_retry_attempt_budget_witness :
    ((fun _ : Nat => Outcome.otherErr) 0 = Outcome.otherErr) ∧
    tenacityCall (fun _ => Outcome.otherErr) 0 = (.failed .otherErr, 1) ∧
    uploadLoopEnd (fun _ => Outcome.otherErr) 0 - 0 = 3 :=
  ⟨rfl, (C4_retry_attempt_budget (fun _ => Outcome.otherErr) 0).2.1 rfl,
   (C4_retry_attempt_budget (fun _ => Outcome.otherErr) 0).2.2.2 (fun _ => rfl)⟩

/-- C4 counterexample: in the save pipeline an upload whose low-level
attempts always fail with a network error is attempted 9 times (3 decorated
calls of 3 attempts each), and one that always fails with a non-network
error is attempted 3 times — contradicting `at most 3 attempts in total` and
`non-network failures get no further retry anywhere in the save
pipeline`. -/
theorem C4_nine_attempts_counterexample :
    uploadLoopEnd (fun _ => Outcome.netErr) 0 = 9 ∧ ¬ (9 : Nat) ≤ 3 ∧
    uploadLoopEnd (fun _ => Outcome.otherErr) 0 = 3 ∧ ¬ (3 : Nat) ≤ 1 := by
  refine ⟨rfl, by omega, rfl, by omega⟩

/-! ## C3 — the run clock -/

/-- C3 (amended): the filter's date and the gating `folder_ids` are fixed at
construction time `t0`, but every upload re-resolves destination folders for
the date current at the call time `t` (`save_files` recomputes `yesterday`);
the construction-time folder ids are only used to decide whether to attempt
the upload at all, and the two agree only when the call happens on the
construction day. -/
theorem C3_upload_recomputes_yesterday (resolve : Nat → String → Option String)
    (parents : List String) (t0 t : Nat)
    (hgate : (initOrchTime resolve parents t0).folder_ids ≠ []) :
    filterDateUsed (initOrchTime resolve parents t0) = yesterdayOf t0 ∧
    upload_to_drive_folders (initOrchTime resolve parents t0) resolve parents t =
      parents.filterMap (resolve (yesterdayOf t)) ∧
    (t = t0 →
      upload_to_drive_folders (initOrchTime resolve parents t0) resolve parents t =
        (initOrchTime resolve parents t0).folder_ids) := by
  have hg : (initOrchTime resolve parents t0).folder_ids.isEmpty = false := by
    rcases hfi : (initOrchTime resolve parents t0).folder_ids with _ | ⟨a, l⟩
    · exact absurd hfi hgate
    · rfl
  refine ⟨rfl, ?_, ?_⟩
  · simp [upload_to_drive_folders, hg, save_files_resolved]
  · intro ht
    subst ht
    simp [upload_to_drive_folders, hg, save_files_resolved, initOrchTime]

/-- C3 witness: a run constructed on day 5 that uploads on day 5. -/
theorem C3_upload_recomputes_yesterday_witness :
    ((initOrchTime resolveToy ["P"] 5).folder_ids ≠ []) ∧
    filterDateUsed (initOrchTime resolveToy ["P"] 5) = yesterdayOf 5 ∧
    upload_to_drive_folders (initOrchTime resolveToy ["P"] 5) resolveToy ["P"] 5 =
      ["P"].filterMap (resolveToy (yesterdayOf 5)) ∧
    upload_to_drive_folders (initOrchTime resolveToy ["P"] 5) resolveToy ["P"] 5 =
      (initOrchTime resolveToy ["P"] 5).folder_ids :=
  ⟨by decide,
   (C3_upload_recomputes_yesterday resolveToy ["P"] 5 5 (by decide)).1,
   (C3_upload_recomputes_yesterday resolveToy ["P"] 5 5 (by decide)).2.1,
   (C3_upload_recomputes_yesterday resolveToy ["P"] 5 5 (by decide)).2.2 rfl⟩

/-- C3 counterexample: a run constructed on day 5 whose upload happens on
day 6 targets the folders resolved for day 5, not the construction-time
folder ids resolved for day 4 — so a straddling run is not internally
consistent and the single-value claim is false. -/
theorem C3_straddling_run_counterexample :
    upload_to_drive_folders (initOrchTime resolveToy ["P"] 5) resolveToy ["P"] 6 = ["5/P"] ∧
    (initOrchTime resolveToy ["P"] 5).folder_ids = ["4/P"] ∧
    upload_to_drive_folders (initOrchTime resolveToy ["P"] 5) resolveToy ["P"] 6 ≠
      (initOrchTime resolveToy ["P"] 5).folder_ids := by
  refine ⟨rfl, rfl, by decide⟩

/-! ## C2 — destination independence in `save_files` -/

/-- C2 (amended): a destination whose folder resolution returns absent
(the 404 `return None` path) is skipped in isolation; provided no
destination's resolution raises, `save_files` completes and every file is
attempted against every destination whose resolution produced a folder id.
(A raising resolution instead aborts the whole save loop — see the
counterexample.) -/
theorem C2_independent_when_no_resolution_raise (api : FolderApi)
    (d : String) (ps files : List String)
    (h : ∀ p ∈ ps, get_or_create_folder api d p ≠ .error ()) :
    (save_files_attempts api d ps files).2 = true ∧
    ∀ p ∈ ps, ∀ fid, get_or_create_folder api d p = .ok (some fid) →
      ∀ f ∈ files, (fid, f) ∈ (save_files_attempts api d ps files).1 := by
  induction ps with
  | nil => exact ⟨rfl, by simp⟩
  | cons p rest ih =>
    have hp : get_or_create_folder api d p ≠ .error () := h p (by simp)
    have hrest : ∀ q ∈ rest, get_or_create_folder api d q ≠ .error () :=
      fun q hq => h q (List.mem_cons_of_mem _ hq)
    obtain ⟨ih1, ih2⟩ := ih hrest
    match hg : get_or_create_folder api d p with
    | .error e =>
      cases e
      exact absurd hg hp
    | .ok none =>
      refine ⟨?_, ?_⟩
      · simpa [save_files_attempts, hg] using ih1
      · intro q hq fid hfid f hf
        rcases List.mem_cons.mp hq with rfl | hq'
        · rw [hg] at hfid
          exact absurd hfid (by simp)
        · simpa [save_files_attempts, hg] using ih2 q hq' fid hfid f hf
    | .ok (some fid0) =>
      refine ⟨?_, ?_⟩
      · simpa [save_files_attempts, hg] using ih1
      · intro q hq fid hfid f hf
        rcases List.mem_cons.mp hq with rfl | hq'
        · rw [hg] at hfid
          have hfe : fid0 = fid := by
            injection hfid with h'
            injection h'
          subst hfe
          simp only [save_files_attempts, hg, List.mem_append]
          exact Or.inl (List.mem_map.mpr ⟨f, hf, rfl⟩)
        · simp only [save_files_attempts, hg, List.mem_append]
          exact Or.inr (ih2 q hq' fid hfid f hf)

/-- C2 witness: parent `A` is absent (404) and is skipped alone; the file is
still attempted against parent `B`'s resolved folder `fb`. -/
theorem C2_independent_witness :
    (∀ p ∈ ["A", "B"], get_or_create_folder apiAbsentA "d" p ≠ .error ()) ∧
    (save_files_attempts apiAbsentA "d" ["A", "B"] ["f"]).2 = true ∧
    ("fb", "f") ∈ (save_files_attempts apiAbsentA "d" ["A", "B"] ["f"]).1 :=
  ⟨by decide,
   (C2_independent_when_no_resolution_raise apiAbsentA "d" ["A", "B"] ["f"] (by decide)).1,
   (C2_independent_when_no_resolution_raise apiAbsentA "d" ["A", "B"] ["f"] (by decide)).2
     "B" (by decide) "fb" (by rfl) "f" (by decide)⟩

/-- C2 counterexample: when destination `A`'s folder resolution raises a
non-retryable, non-404 error, `save_files` re-raises and destination `B` —
whose own resolution succeeds — receives no upload, so a single
destination's failure does lose the others. -/
theorem C2_raise_aborts_other_destinations :
    save_files_attempts apiRaiseA "d" ["A", "B"] ["f"] = ([], false) ∧
    get_or_create_folder apiRaiseA "d" "B" = .ok (some "fb") ∧
    ("fb", "f") ∉ (save_files_attempts apiRaiseA "d" ["A", "B"] ["f"]).1 := by
  refine ⟨rfl, rfl, by decide⟩

/-! ## C7/C8 — pagination with early stop -/

/-- The pagination loop started at page `s` with `fuel` iterations left,
when page `z` is the first stopping page (empty or erroring) within the
budget: every page from `s` to `z` inclusive is requested, in increasing
order, and the records of the pages before `z` are accumulated in page
order. -/
lemma scrapePagesFrom_stop (fetch : String → PageResult) (base : String) :
    ∀ f s z : Nat, s ≤ z → z < s + f →
      stopsB (fetch (pageLink base z)) = true →
      (∀ p, s ≤ p → p < z → stopsB (fetch (pageLink base p)) = false) →
      scrapePagesFrom fetch base s f =
        ((List.range' s (z - s)).flatMap (fun p => yieldOf (fetch (pageLink base p))),
         (List.range' s (z - s + 1)).map (pageLink base)) := by
  intro f
  induction f with
  | zero =>
    intro s z hsz hzf _ _
    omega
  | succ f ih =>
    intro s z hsz hzf hstop hprev
    by_cases he : s = z
    · subst he
      have hz0 : s - s = 0 := by omega
      match hf : fetch (pageLink base s) with
      | .err => simp [scrapePagesFrom, hf, hz0, List.range'_one]
      | .ok [] => simp [scrapePagesFrom, hf, hz0, List.range'_one]
      | .ok (c :: cs) =>
        rw [hf] at hstop
        simp [stopsB] at hstop
    · have hslt : s < z := lt_of_le_of_ne hsz he
      have hs := hprev s le_rfl hslt
      match hf : fetch (pageLink base s) with
      | .err =>
        rw [hf] at hs
        simp [stopsB] at hs
      | .ok [] =>
        rw [hf] at hs
        simp [stopsB] at hs
      | .ok (c :: cs) =>
        have ihr := ih (s + 1) z (by omega) (by omega) hstop
          (fun p hp1 hp2 => hprev p (by omega) hp2)
        have hzs : z - s = (z - (s + 1)) + 1 := by omega
        simp only [scrapePagesFrom, hf]
        rw [ihr, hzs]
        simp [hf, yieldOf, List.range'_succ, List.flatMap_cons]

/-- C7: for every brand, pages are requested in increasing order from 1, and
the first page within the budget yielding zero records stops the loop: the
records of the pages strictly before it are accumulated and no later page is
requested. -/
theorem C7_pagination_stops_at_first_empty (fetch : String → PageResult)
    (base : String) (budget z : Nat) (h1 : 1 ≤ z) (hb : z ≤ budget)
    (hz : fetch (pageLink base z) = .ok [])
    (hp : ∀ p, p < z → 1 ≤ p → stopsB (fetch (pageLink base p)) = false) :
    scrapePages fetch base budget =
      ((List.range' 1 (z - 1)).flatMap (fun p => yieldOf (fetch (pageLink base p))),
       (List.range' 1 z).map (pageLink base)) := by
  have h := scrapePagesFrom_stop fetch base budget 1 z h1 (by omega)
    (by rw [hz]; rfl) (fun p hp1 hp2 => hp p hp2 hp1)
  have hz1 : z - 1 + 1 = z := by omega
  rw [scrapePages, h, hz1]

/-- C7 witness: the spec's P1 scenario — pages yielding one record, one
record, then zero: pages 1, 2 and 3 are requested, pages 1–2's records are
kept, page 4 and beyond are never requested. -/
theorem C7_pagination_witness :
    (1 ≤ 3) ∧ (3 ≤ 5) ∧ fetchTwoPages (pageLink "b" 3) = .ok [] ∧
    (∀ p, p < 3 → 1 ≤ p → stopsB (fetchTwoPages (pageLink "b" p)) = false) ∧
    scrapePages fetchTwoPages "b" 5 =
      ((List.range' 1 2).flatMap (fun p => yieldOf (fetchTwoPages (pageLink "b" p))),
       (List.range' 1 3).map (pageLink "b")) ∧
    scrapePages fetchTwoPages "b" 5 = ([rec1, rec2], ["b/1", "b/2", "b/3"]) :=
  ⟨by omega, by omega, by decide, by decide,
   C7_pagination_stops_at_first_empty fetchTwoPages "b" 5 3 (by omega) (by omega)
     (by decide) (by decide),
   by decide⟩

/-- C8: when the detail extractor raises on page `z` of brand `B`, the
harvester still emits `B`'s entry carrying the records of the pages before
`z`, never propagates the error (the result is a total value), and the
brands after `B` are processed exactly as they would be on their own. -/
theorem C8_error_isolated_per_brand (self : CarScraper) (env : Env)
    (pre post : List BrandElem) (B : BrandElem) (href : String)
    (hElems : env.brand_elements = pre ++ B :: post)
    (hhref : B.href = some href) (hne : href ≠ "")
    (z : Nat) (h1 : 1 ≤ z) (hbud : z ≤ pagesBudget self B.title)
    (herr : env.fetch (pageLink (resolveBrandLink self.url href) z) = .err)
    (hp : ∀ p, p < z → 1 ≤ p →
      stopsB (env.fetch (pageLink (resolveBrandLink self.url href) p)) = false) :
    (scrape_brands_and_types self env).1 =
      self.data ++ pre.filterMap (entryFor self env.fetch) ++
      ({ brand_title := B.title
         brand_link := rsplitBefore (resolveBrandLink self.url href) ++ "/" ++ placeholder
         available_cars := (List.range' 1 (z - 1)).flatMap
           (fun p => yieldOf (env.fetch (pageLink (resolveBrandLink self.url href) p))) } : Entry)
      :: post.filterMap (entryFor self env.fetch) := by
  have hstop := scrapePagesFrom_stop env.fetch (resolveBrandLink self.url href)
    (pagesBudget self B.title) 1 z h1 (by omega) (by rw [herr]; rfl)
    (fun p hp1 hp2 => hp p hp2 hp1)
  have hentry : entryFor self env.fetch B =
      some { brand_title := B.title
             brand_link := rsplitBefore (resolveBrandLink self.url href) ++ "/" ++ placeholder
             available_cars := (List.range' 1 (z - 1)).flatMap
               (fun p => yieldOf (env.fetch (pageLink (resolveBrandLink self.url href) p))) } := by
    have hz1 : z - 1 + 1 = z := by omega
    simp [entryFor, processBrand, hhref, hne, scrapePages, hstop, hz1]
  have hnonempty : env.brand_elements.isEmpty = false := by
    rw [hElems]
    cases pre <;> rfl
  simp [scrape_brands_and_types, hnonempty, hElems, List.filterMap_append,
    List.filterMap_cons, hentry, List.append_assoc]

/-- C8 witness: the spec's P2 scenario over `envCat` — brand `B`'s page 2
raises; `B` still appears with page 1's record and brand `C` is processed
unaffected. -/
theorem C8_error_isolated_witness :
    envCat.brand_elements = [elemA] ++ elemB :: [elemC] ∧
    elemB.href = some "/cat/b" ∧ ("/cat/b" : String) ≠ "" ∧
    (1 ≤ 2) ∧ (2 ≤ pagesBudget selfCat elemB.title) ∧
    envCat.fetch (pageLink (resolveBrandLink selfCat.url "/cat/b") 2) = .err ∧
    (∀ p, p < 2 → 1 ≤ p →
      stopsB (envCat.fetch (pageLink (resolveBrandLink selfCat.url "/cat/b") p)) = false) ∧
    (scrape_brands_and_types selfCat envCat).1 =
      selfCat.data ++ [elemA].filterMap (entryFor selfCat envCat.fetch) ++
      ({ brand_title := elemB.title
         brand_link := rsplitBefore (resolveBrandLink selfCat.url "/cat/b") ++ "/" ++ placeholder
         available_cars := (List.range' 1 (2 - 1)).flatMap
           (fun p => yieldOf (envCat.fetch (pageLink (resolveBrandLink selfCat.url "/cat/b") p))) } : Entry)
      :: [elemC].filterMap (entryFor selfCat envCat.fetch) :=
  ⟨rfl, rfl, by decide, by omega, by decide, by decide, by decide,
   C8_error_isolated_per_brand selfCat envCat [elemA] [elemC] elemB "/cat/b"
     rfl rfl (by decide) 2 (by omega) (by decide) (by decide) (by decide)⟩

/-! ## C10 — the accumulator is never reset -/

/-- The emitted entries do not depend on the accumulator field of the
instance state. -/
lemma entryFor_data_irrel (url : String) (np : Nat) (sb : List String)
    (sp : Nat) (d : List Entry) (fetch : String → PageResult) :
    entryFor ⟨url, np, sb, sp, d⟩ fetch = entryFor ⟨url, np, sb, sp, []⟩ fetch := rfl

/-- C10: `self.data` is only ever appended to, so a second harvest on the
same instance returns the first harvest's returned entries followed by the
entries freshly discovered in the second environment. -/
theorem C10_accumulator_never_reset (self : CarScraper) (env1 env2 : Env) :
    (scrape_brands_and_types (scrape_brands_and_types self env1).2 env2).1 =
      (scrape_brands_and_types self env1).1 ++
      (scrape_brands_and_types { self with data := [] } env2).1 := by
  rcases self with ⟨url, np, sb, sp, data⟩
  by_cases h1 : env1.brand_elements.isEmpty <;>
    by_cases h2 : env2.brand_elements.isEmpty <;>
      simp [scrape_brands_and_types, h1, h2, entryFor_data_irrel]

/-! ## C6 — the emitted link template -/

/-- A slash-free character list has no prefix-before-last-slash. -/
lemma beforeLastSlash_eq_none (l : List Char) (h : '/' ∉ l) :
    beforeLastSlash l = none := by
  induction l with
  | nil => rfl
  | cons c cs ih =>
    have hc : ¬ c = '/' := fun hEq => h (hEq ▸ List.mem_cons_self c cs)
    have htail : '/' ∉ cs := fun hm => h (List.mem_cons_of_mem _ hm)
    simp [beforeLastSlash, ih htail, hc]

/-- Slicing before the last slash of `x ++ '/' :: y` gives back `x` when `y`
is slash-free. -/
lemma beforeLastSlash_append (y : List Char) (hy : '/' ∉ y) :
    ∀ x : List Char, beforeLastSlash (x ++ '/' :: y) = some x := by
  intro x
  induction x with
  | nil => simp [beforeLastSlash, beforeLastSlash_eq_none y hy]
  | cons c cs ih => simp [beforeLastSlash, ih]

/-- Dropping everything after the last `'/'` of `a ++ "/" ++ b` gives back
`a` when `b` itself contains no `'/'`. -/
lemma rsplitBefore_append (a b : String) (hb : '/' ∉ b.data) :
    rsplitBefore (a ++ "/" ++ b) = a := by
  have hdata : (a ++ "/" ++ b).data = a.data ++ '/' :: b.data := by
    simp [String.data_append]
  rw [rsplitBefore, hdata, beforeLastSlash_append b.data hb a.data]

/-- Substitution walks past a character that does not open a brace. -/
lemma substOnce_cons_ne (v : List Char) (c : Char) (cs : List Char)
    (hc : ¬ c = lbrace) : substOnce v (c :: cs) = c :: substOnce v cs := by
  cases cs <;> simp [substOnce, hc]

/-- Substituting into a placeholder-terminated character list replaces the
placeholder, provided no earlier character opens a brace. -/
lemma substOnce_append (v : List Char) :
    ∀ l : List Char, lbrace ∉ l → substOnce v (l ++ [lbrace, rbrace]) = l ++ v := by
  intro l
  induction l with
  | nil =>
    intro _
    simp [substOnce]
  | cons c cs ih =>
    intro h
    have hc : ¬ c = lbrace := fun hEq => h (hEq ▸ List.mem_cons_self c cs)
    have htail : lbrace ∉ cs := fun hm => h (List.mem_cons_of_mem _ hm)
    rw [List.cons_append, substOnce_cons_ne v c _ hc, ih htail, List.cons_append]

/-- C6 (amended): for a brand whose absolute link is `a ++ "/" ++ b` (with
`b` its final path segment — the brand's own slug, not a page segment), the
emitted template is `a` with the placeholder as a new final segment;
substituting a page number `n` therefore yields the sibling URL `a/n`, while
the URL actually requested for page `n` is `a/b/n` — the placeholder does
not stand where the page number is appended. -/
theorem C6_template_drops_brand_segment (self : CarScraper)
    (fetch : String → PageResult) (t : Option String) (a b : String)
    (hslash : '/' ∉ b.data) (hbrace : lbrace ∉ (a ++ "/").data)
    (habs : pyStartsWithSlash (a ++ "/" ++ b) = false) :
    processBrand self fetch ⟨t, some (a ++ "/" ++ b)⟩ =
      some ({ brand_title := t
              brand_link := a ++ "/" ++ placeholder
              available_cars := (scrapePages fetch (a ++ "/" ++ b) (pagesBudget self t)).1 },
            (scrapePages fetch (a ++ "/" ++ b) (pagesBudget self t)).2) ∧
    (∀ n : Nat, pyFormat1 (a ++ "/" ++ placeholder) n = a ++ "/" ++ toString n) ∧
    (∀ n : Nat, pageLink (a ++ "/" ++ b) n = a ++ "/" ++ b ++ "/" ++ toString n) := by
  have hne : a ++ "/" ++ b ≠ "" := by
    intro hcontra
    have hd := congrArg String.data hcontra
    simp [String.data_append] at hd
  have habs' : pyStartsWithSlash (a ++ ("/" ++ b)) = false := by
    rwa [← String.append_assoc]
  have hne' : a ++ ("/" ++ b) ≠ "" := by
    rwa [← String.append_assoc]
  have hrs : rsplitBefore (a ++ ("/" ++ b)) = a := by
    rw [← String.append_assoc]
    exact rsplitBefore_append a b hslash
  refine ⟨?_, ?_, ?_⟩
  · simp [processBrand, hne, hne', resolveBrandLink, habs, habs', hrs,
      rsplitBefore_append a b hslash]
  · intro n
    have hdata : (a ++ "/" ++ placeholder).data = (a ++ "/").data ++ [lbrace, rbrace] := by
      simp [String.data_append, placeholder]
    rw [pyFormat1, hdata, substOnce_append (toString n).data ((a ++ "/").data) hbrace]
    apply String.ext
    simp [String.data_append]
  · intro n
    rw [pageLink]

/-- C6 witness: brand slug `b` under `https://h.x/cat`: the template
substitutes to `https://h.x/cat/7` while page 7's requested URL is
`https://h.x/cat/b/7`. -/
theorem C6_template_witness :
    ('/' ∉ ("b" : String).data) ∧
    (lbrace ∉ ("https://h.x/cat" ++ "/" : String).data) ∧
    (pyStartsWithSlash ("https://h.x/cat" ++ "/" ++ "b") = false) ∧
    processBrand selfC6 fetchNone ⟨some "B", some ("https://h.x/cat" ++ "/" ++ "b")⟩ =
      some ({ brand_title := some "B"
              brand_link := "https://h.x/cat" ++ "/" ++ placeholder
              available_cars :=
                (scrapePages fetchNone ("https://h.x/cat" ++ "/" ++ "b")
                  (pagesBudget selfC6 (some "B"))).1 },
            (scrapePages fetchNone ("https://h.x/cat" ++ "/" ++ "b")
              (pagesBudget selfC6 (some "B"))).2) ∧
    pyFormat1 ("https://h.x/cat" ++ "/" ++ placeholder) 7 =
      "https://h.x/cat" ++ "/" ++ toString 7 ∧
    pageLink ("https://h.x/cat" ++ "/" ++ "b") 7 =
      "https://h.x/cat" ++ "/" ++ "b" ++ "/" ++ toString 7 :=
  ⟨by decide, by decide, by decide,
   (C6_template_drops_brand_segment selfC6 fetchNone (some "B") "https://h.x/cat" "b"
     (by decide) (by decide) (by decide)).1,
   (C6_template_drops_brand_segment selfC6 fetchNone (some "B") "https://h.x/cat" "b"
     (by decide) (by decide) (by decide)).2.1 7,
   (C6_template_drops_brand_segment selfC6 fetchNone (some "B") "https://h.x/cat" "b"
     (by decide) (by decide) (by decide)).2.2 7⟩

/-- C6 counterexample: for the brand anchor `/cat/b` under
`https://h.x/cat`, page 1's requested URL is `https://h.x/cat/b/1`, but
substituting 1 into the emitted template yields `https://h.x/cat/1` — so the
claim that substitution reproduces every requested page URL is false. -/
theorem C6_subst_mismatch_counterexample :
    processBrand selfC6 fetchNone elemC6 =
      some ({ brand_title := some "B"
              brand_link := "https://h.x/cat/" ++ placeholder
              available_cars := [] }, ["https://h.x/cat/b/1"]) ∧
    pyFormat1 ("https://h.x/cat/" ++ placeholder) 1 = "https://h.x/cat/1" ∧
    pyFormat1 ("https://h.x/cat/" ++ placeholder) 1 ≠ "https://h.x/cat/b/1" := by
  refine ⟨by decide, by decide, by decide⟩

end Scrape
